import Mathlib

/-!
Verification of the projectghost cognitive-agent core against its
natural-language specification.

Each subsystem that the checked claims touch is embedded shallowly:
Python floats are modelled as exact rationals (ℚ), Python strings as
Lean strings (scanning helpers work on `List Char` with Python
semantics), SQLite tables keyed by a UNIQUE constraint as association
lists, and wall-clock time as an explicit parameter.  I/O (logging,
persistence, the event bus, the LLM endpoint) is outside the model;
every embedded function is the pure state transformer performed by the
corresponding Python method between its I/O calls.
-/

set_option allowUnsafeReducibility true in
attribute [semireducible] Rat.add Rat.mul Rat.inv Rat.sub Rat.ofScientific

namespace Ghost

/-! ## Python string primitives

Helpers mirroring the Python `str` operations used by the sources.
All texts in play are ASCII, so `Char.toLower`/`Char.isAlpha` agree
with Python semantics on the inputs that occur. -/

/-- Whitespace class of Python (space, tab, newline, vertical tab, form feed, carriage return). -/
def pyIsSpace (c : Char) : Bool :=
  c = ' ' || c = '\t' || c = '\n' || c = Char.ofNat 11 || c = Char.ofNat 12 || c = '\r'

/-- Word character for the regex class backslash-w (ASCII letters, digits, underscore). -/
def isWordChar (c : Char) : Bool :=
  c.isAlpha || c.isDigit || c = '_'

/-- Python str.lower on a char list. -/
def lowerL (s : List Char) : List Char := s.map Char.toLower

/-- Python str.lower. -/
def pyLower (s : String) : String := String.mk (lowerL s.data)

/-- Does the list start with the given pattern? -/
def startsWithL : List Char → List Char → Bool
  | _, [] => true
  | [], _ :: _ => false
  | c :: cs, p :: ps => c = p && startsWithL cs ps

/-- Python substring test (pat in s) on char lists. -/
def containsL : List Char → List Char → Bool
  | [], pat => pat.isEmpty
  | c :: cs, pat => startsWithL (c :: cs) pat || containsL cs pat

/-- Python substring test (pat in s). -/
def pyContains (s pat : String) : Bool := containsL s.data pat.data

/-- Python str.strip on a char list. -/
def pyStripL (s : List Char) : List Char :=
  ((s.dropWhile pyIsSpace).reverse.dropWhile pyIsSpace).reverse

/-- Python str.strip. -/
def pyStrip (s : String) : String := String.mk (pyStripL s.data)

/-- Worker for Python str.split with no separator: split on whitespace runs. -/
def pySplitWsGo : List Char → List Char → List (List Char)
  | [], acc => if acc.isEmpty then [] else [acc.reverse]
  | c :: cs, acc =>
    if pyIsSpace c then
      if acc.isEmpty then pySplitWsGo cs [] else acc.reverse :: pySplitWsGo cs []
    else pySplitWsGo cs (c :: acc)

/-- Python str.split with no separator. -/
def pySplitWs (s : List Char) : List (List Char) := pySplitWsGo s []

/-- Worker for Python str.replace: fuel-bounded; fuel = length of the subject suffices
because each step consumes at least one character (the pattern is nonempty at all call sites). -/
def pyReplaceGo (pat rep : List Char) : Nat → List Char → List Char
  | 0, s => s
  | _ + 1, [] => []
  | fuel + 1, c :: cs =>
    if !pat.isEmpty && startsWithL (c :: cs) pat then
      rep ++ pyReplaceGo pat rep fuel (List.drop pat.length (c :: cs))
    else
      c :: pyReplaceGo pat rep fuel cs

/-- Python str.replace (all non-overlapping occurrences, left to right). -/
def pyReplaceL (s pat rep : List Char) : List Char := pyReplaceGo pat rep s.length s

/-- Python str.replace on strings. -/
def pyReplace (s pat rep : String) : String := String.mk (pyReplaceL s.data pat.data rep.data)

/-- Last n elements of a list (Python l[-n:] for n ≥ 1). -/
def lastN (n : Nat) (l : List α) : List α := l.drop (l.length - n)

/-! ## PAD emotional model (src/ghost/emotion/pad_model.py) -/

/-- EmotionalState: the PAD (pleasure, arousal, dominance) vector. -/
structure EmotionalState where
  pleasure : ℚ
  arousal : ℚ
  dominance : ℚ
deriving DecidableEq, Repr

namespace PADModel

/-- PADModel.DECAY_RATE = 0.05: decay applied on every update. -/
def DECAY_RATE : ℚ := 5/100

/-- PADModel._clamp: clamp a value to [-1, 1]. -/
def clamp (value : ℚ) : ℚ := max (-1) (min 1 value)

/-- PADModel._decay: move a value one decay step toward neutral (0). -/
def decay (value : ℚ) : ℚ :=
  if value > 0 then max 0 (value - DECAY_RATE)
  else if value < 0 then min 0 (value + DECAY_RATE)
  else 0

/-- PADModel.update: decay each coordinate toward 0, then add the delta and clamp. -/
def update (s : EmotionalState) (pleasure_delta arousal_delta dominance_delta : ℚ) :
    EmotionalState where
  pleasure := clamp (decay s.pleasure + pleasure_delta)
  arousal := clamp (decay s.arousal + arousal_delta)
  dominance := clamp (decay s.dominance + dominance_delta)

end PADModel

/-! ## Emotion service (src/ghost/emotion/emotion_service.py)

The service's mutable state is the PAD model plus the grudge latch.
Wall-clock instants are passed explicitly (rational seconds). -/

/-- Grudge latch state (_in_grudge_mode, _grudge_trigger_reason, _grudge_start_time). -/
structure GrudgeState where
  active : Bool
  trigger_reason : Option String
  start_time : Option ℚ
deriving DecidableEq, Repr

/-- State owned by EmotionService: the PAD model plus the grudge latch. -/
structure EmotionServiceState where
  pad : EmotionalState
  grudge : GrudgeState
deriving DecidableEq, Repr

namespace EmotionService

/-- EmotionService.INERTIA_WEIGHT = 0.8. -/
def INERTIA_WEIGHT : ℚ := 8/10

/-- EmotionService.STIMULUS_WEIGHT = 0.2. -/
def STIMULUS_WEIGHT : ℚ := 2/10

/-- EmotionService.GRUDGE_PLEASURE_THRESHOLD = -0.5. -/
def GRUDGE_PLEASURE_THRESHOLD : ℚ := -5/10

/-- EmotionService.GRUDGE_DOMINANCE_THRESHOLD = 0.5. -/
def GRUDGE_DOMINANCE_THRESHOLD : ℚ := 5/10

/-- EmotionService.GRUDGE_DAMPENING_FACTOR = 0.3. -/
def GRUDGE_DAMPENING_FACTOR : ℚ := 3/10

/-- Apology keyword list from _check_grudge_mode. -/
def apology_keywords : List String :=
  ["sorry", "apology", "apologize", "my bad", "forgive", "didn\x27t mean"]

/-- Does the (lowercased) trigger string contain an apology keyword? -/
def apologyDetected (reason : String) : Bool :=
  apology_keywords.any (fun keyword => pyContains (pyLower reason) keyword)

/-- Has the latch been held for more than 30 minutes (1800 s)?  The Python code
skips this check when no start time is recorded. -/
def grudgeTimeExpired (start_time : Option ℚ) (now : ℚ) : Bool :=
  match start_time with
  | some t => decide (now - t > 1800)
  | none => false

/-- EmotionService._release_grudge: clear the latch. -/
def releaseGrudge : GrudgeState := ⟨false, none, none⟩

/-- EmotionService._check_grudge_mode: run the trigger check, then the three release
checks (apology keyword, 30-minute expiry, recovered pleasure), in source order. -/
def checkGrudgeMode (g : GrudgeState) (state : EmotionalState) (reason : String)
    (now : ℚ) : GrudgeState :=
  let g1 :=
    if state.pleasure < GRUDGE_PLEASURE_THRESHOLD ∧
        state.dominance > GRUDGE_DOMINANCE_THRESHOLD then
      if g.active then g else ⟨true, some reason, some now⟩
    else g
  if g1.active then
    if apologyDetected reason then releaseGrudge
    else if grudgeTimeExpired g1.start_time now then releaseGrudge
    else if state.pleasure > 2/10 then releaseGrudge
    else g1
  else g1

/-- EmotionService.update_state: grudge dampening of positive pleasure input,
emotional inertia (0.8 old + 0.2 delta, minus old), PAD update with decay, and
the grudge-mode check on the resulting state.  Event publication and JSON
persistence are I/O and outside the model. -/
def updateState (st : EmotionServiceState) (pleasure_delta arousal_delta dominance_delta : ℚ)
    (reason : String) (now : ℚ) : EmotionServiceState :=
  let old := st.pad
  let pleasure_delta :=
    if st.grudge.active ∧ pleasure_delta > 0 then pleasure_delta * GRUDGE_DAMPENING_FACTOR
    else pleasure_delta
  let final_pleasure_delta := (old.pleasure * INERTIA_WEIGHT + pleasure_delta * STIMULUS_WEIGHT) - old.pleasure
  let final_arousal_delta := (old.arousal * INERTIA_WEIGHT + arousal_delta * STIMULUS_WEIGHT) - old.arousal
  let final_dominance_delta := (old.dominance * INERTIA_WEIGHT + dominance_delta * STIMULUS_WEIGHT) - old.dominance
  let new_state := PADModel.update old final_pleasure_delta final_arousal_delta final_dominance_delta
  { pad := new_state, grudge := checkGrudgeMode st.grudge new_state reason now }

end EmotionService

/-! ## Belief system (src/ghost/cognition/belief_system.py)

The beliefs table has UNIQUE(entity, relation), so it is modelled as an
association list keyed by the pair; INSERT OR REPLACE keeps one row per key. -/

/-- Row of the beliefs table (minus the surrogate id). -/
structure BeliefRow where
  value : String
  timestamp : String
  confidence : ℚ
  source : String
deriving DecidableEq, Repr

/-- Belief store: one row per (entity, relation) key. -/
abbrev BeliefStore := List ((String × String) × BeliefRow)

namespace BeliefSystem

/-- Find the row for a key (the table has at most one per UNIQUE(entity, relation)). -/
def find : BeliefStore → String → String → Option BeliefRow
  | [], _, _ => none
  | ((e, r), row) :: rest, entity, relation =>
    if e = entity ∧ r = relation then some row else find rest entity relation

/-- INSERT OR REPLACE INTO beliefs for the UNIQUE(entity, relation) key. -/
def upsert : BeliefStore → String → String → BeliefRow → BeliefStore
  | [], entity, relation, row => [((entity, relation), row)]
  | ((e, r), old) :: rest, entity, relation, row =>
    if e = entity ∧ r = relation then ((e, r), row) :: rest
    else ((e, r), old) :: upsert rest entity relation row

/-- BeliefSystem._get_source: source of the stored belief for a key, if any. -/
def getSource (db : BeliefStore) (entity relation : String) : Option String :=
  (find db entity relation).map (·.source)

/-- BeliefSystem.query: most recent value for a key (unique row per key). -/
def query (db : BeliefStore) (entity relation : String) : Option String :=
  (find db entity relation).map (·.value)

/-- BeliefSystem.store: reject non-genesis writes over an existing genesis row,
otherwise INSERT OR REPLACE.  Returns the new store and the success boolean. -/
def store (db : BeliefStore) (entity relation value : String) (timestamp : String)
    (confidence : ℚ) (source : String) : BeliefStore × Bool :=
  if source ≠ "genesis" ∧ getSource db entity relation = some "genesis" then
    (db, false)
  else
    (upsert db entity relation ⟨value, timestamp, confidence, source⟩, true)

/-- BeliefSystem.verify: unknown keys verify as true, otherwise case-insensitive equality. -/
def verify (db : BeliefStore) (entity relation value : String) : Bool :=
  match query db entity relation with
  | none => true
  | some stored => pyLower stored = pyLower value

end BeliefSystem

/-! ## BDI engine needs and willpower (src/ghost/cognition/bdi_engine.py) -/

/-- Need record (value plus decay configuration; timestamps handled separately). -/
structure Need where
  value : ℚ
  decay_rate : ℚ
  threshold_trigger : ℚ
deriving DecidableEq, Repr

/-- The four needs of BDIEngine._initialize_needs. -/
structure BDINeeds where
  social : Need
  curiosity : Need
  energy : Need
  affiliation : Need
deriving DecidableEq, Repr

namespace BDIEngine

/-- BDIEngine._initialize_needs: initial values and rates. -/
def initialize_needs : BDINeeds where
  social := ⟨3/10, 15/100, 7/10⟩
  curiosity := ⟨2/10, 8/100, 6/10⟩
  energy := ⟨2/10, 5/100, 7/10⟩
  affiliation := ⟨5/10, 1/10, 8/10⟩

/-- BDIEngine.check_willpower: refuse when energy is critical and the task expensive,
warn (but allow) when energy is merely low, otherwise allow silently. -/
def check_willpower (needs : BDINeeds) (task_cost : ℚ) : Bool × String :=
  let energy_need := needs.energy.value
  if energy_need > 8/10 ∧ task_cost > 1/10 then
    (false, "I\x27m too tired right now, can we do this later?")
  else if energy_need > 6/10 then
    (true, "I\x27m a bit tired, but I can help")
  else
    (true, "")

/-- Modelled from the spec: the specification's canonical "default" willpower
variant with energy-gating disabled (it always allows with an empty reason).
This variant is not present under src/; only the energy-gated variant is. -/
def check_willpower_default (_task_cost : ℚ) : Bool × String := (true, "")

end BDIEngine

/-! ## Messages and metadata (src/ghost/core/interfaces.py)

Metadata dictionaries hold strings, numbers (ints and floats kept apart,
as in Python), and booleans; insertion order is preserved. -/

/-- A value stored in a Message metadata dictionary. -/
inductive MetaValue where
  | s (v : String)
  | q (v : ℚ)
  | i (v : Int)
  | b (v : Bool)
deriving DecidableEq, Repr

/-- Message: role, content, metadata (an insertion-ordered dict). -/
structure Message where
  role : String
  content : String
  metadata : List (String × MetaValue)
deriving DecidableEq, Repr

/-- Python dict assignment md[k] = v: replace in place or append. -/
def metaSet : List (String × MetaValue) → String → MetaValue → List (String × MetaValue)
  | [], k, v => [(k, v)]
  | (k0, v0) :: rest, k, v =>
    if k0 = k then (k0, v) :: rest else (k0, v0) :: metaSet rest k v

/-- Python dict lookup md.get(k). -/
def metaGet : List (String × MetaValue) → String → Option MetaValue
  | [], _ => none
  | (k0, v0) :: rest, k => if k0 = k then some v0 else metaGet rest k

/-! ## Importance scorer (src/ghost/memory/importance_scorer.py) -/

namespace ImportanceScorer

/-- ImportanceScorer.PERSONAL_INFO_KEYWORDS. -/
def PERSONAL_INFO_KEYWORDS : List String :=
  ["my name is", "i am", "i\x27m", "i live", "i work", "my job",
   "my birthday", "i like", "i love", "i hate", "i prefer"]

/-- ImportanceScorer.PREFERENCE_KEYWORDS. -/
def PREFERENCE_KEYWORDS : List String :=
  ["favorite", "prefer", "like", "dislike", "love", "hate",
   "always", "never", "usually", "often"]

/-- ImportanceScorer.FUTURE_KEYWORDS. -/
def FUTURE_KEYWORDS : List String :=
  ["will", "going to", "plan to", "want to", "need to",
   "tomorrow", "next week", "later", "soon", "remember to"]

/-- ImportanceScorer.EMOTIONAL_KEYWORDS. -/
def EMOTIONAL_KEYWORDS : List String :=
  ["feel", "feeling", "happy", "sad", "angry", "excited",
   "worried", "stressed", "anxious", "grateful"]

/-- ImportanceScorer.CORRECTION_KEYWORDS. -/
def CORRECTION_KEYWORDS : List String :=
  ["actually", "correction", "i meant", "not", "didn\x27t", "don\x27t"]

/-- ImportanceScorer.score_message: non-user messages score a flat 0.3; user
messages start from base 0.5, add the keyword/length/question bonuses, and are
clamped to [0, 1]. -/
def score_message (message : Message) : ℚ :=
  if message.role ≠ "user" then 3/10
  else
    let content := pyLower message.content
    let score : ℚ := 5/10
    let score := if PERSONAL_INFO_KEYWORDS.any (pyContains content) then score + 3/10 else score
    let score := if PREFERENCE_KEYWORDS.any (pyContains content) then score + 2/10 else score
    let score := if FUTURE_KEYWORDS.any (pyContains content) then score + 2/10 else score
    let score := if EMOTIONAL_KEYWORDS.any (pyContains content) then score + 15/100 else score
    let score := if CORRECTION_KEYWORDS.any (pyContains content) then score + 25/100 else score
    let word_count := (pySplitWs content.data).length
    let score :=
      if word_count > 30 then score + 1/10
      else if word_count < 3 then score - 2/10
      else score
    let score := if pyContains content "?" then score + 1/10 else score
    max 0 (min 1 score)

/-- Modelled from the spec (§4.4 importance gate), for comparison with the code:
base 0.5 for user messages and 0.3 for assistant messages, plus the keyword,
length, and question bonuses applied to every message regardless of role,
clamped to [0, 1].  The keyword lists themselves are shared with the code. -/
def specImportanceScore (message : Message) : ℚ :=
  let content := pyLower message.content
  let base : ℚ := if message.role = "user" then 5/10 else 3/10
  let word_count := (pySplitWs content.data).length
  let score := base
    + (if PERSONAL_INFO_KEYWORDS.any (pyContains content) then 3/10 else 0)
    + (if PREFERENCE_KEYWORDS.any (pyContains content) then 2/10 else 0)
    + (if FUTURE_KEYWORDS.any (pyContains content) then 2/10 else 0)
    + (if EMOTIONAL_KEYWORDS.any (pyContains content) then 15/100 else 0)
    + (if CORRECTION_KEYWORDS.any (pyContains content) then 25/100 else 0)
    + (if word_count > 30 then 1/10 else 0)
    - (if word_count < 3 then 2/10 else 0)
    + (if pyContains content "?" then 1/10 else 0)
  max 0 (min 1 score)

end ImportanceScorer

/-! ## Vector store (src/ghost/memory/vector_store.py)

The ChromaDB collection is modelled as the list of stored messages (document,
role, metadata); embeddings themselves play no role in the checked claims.
The import-failure fallback is an unbounded-scored plain list with a 1000-entry
FIFO cap, exactly as in the source. -/

/-- VectorStore state: mode flag, admission threshold, and the two backing stores. -/
structure VectorStore where
  fallback_mode : Bool
  importance_threshold : ℚ
  fallback_store : List Message
  collection : List Message
deriving DecidableEq, Repr

namespace VectorStore

/-- VectorStore.add_message: in fallback mode append with a 1000-entry cap; in
ChromaDB mode score the message, drop it when below the threshold, otherwise
record the score in its metadata and add it to the collection. -/
def add_message (vs : VectorStore) (message : Message) : VectorStore :=
  if vs.fallback_mode then
    let fs := vs.fallback_store ++ [message]
    let fs := if fs.length > 1000 then fs.drop 1 else fs
    { vs with fallback_store := fs }
  else
    let importance := ImportanceScorer.score_message message
    if importance < vs.importance_threshold then vs
    else
      let stored := { message with metadata := metaSet message.metadata "importance" (.q importance) }
      { vs with collection := vs.collection ++ [stored] }

end VectorStore

/-! ## Episodic buffer (src/ghost/memory/episodic_buffer.py) -/

/-- EpisodicBuffer: a deque with maxlen = max_size. -/
structure EpisodicBuffer where
  max_size : Nat
  messages : List Message
deriving DecidableEq, Repr

namespace EpisodicBuffer

/-- EpisodicBuffer.add: deque append; the deque maxlen evicts from the left. -/
def add (b : EpisodicBuffer) (message : Message) : EpisodicBuffer :=
  let l := b.messages ++ [message]
  { b with messages := if l.length > b.max_size then l.drop (l.length - b.max_size) else l }

/-- EpisodicBuffer.get_recent: the most recent limit messages. -/
def get_recent (b : EpisodicBuffer) (limit : Nat) : List Message :=
  lastN limit b.messages

/-- EpisodicBuffer.get_all. -/
def get_all (b : EpisodicBuffer) : List Message := b.messages

/-- EpisodicBuffer.clear. -/
def clear (b : EpisodicBuffer) : EpisodicBuffer := { b with messages := [] }

/-- EpisodicBuffer.size. -/
def size (b : EpisodicBuffer) : Nat := b.messages.length

end EpisodicBuffer

/-! ## Hierarchical memory (src/ghost/memory/hierarchical_memory.py)

The optional LLM-backed summarizer is constructed with default None, so
consolidation uses the deterministic keyword-frequency fallback summary;
the external-summarizer branch is unreachable in that configuration and is
not modelled. -/

/-- Record one word occurrence in the insertion-ordered frequency dict. -/
def bumpFreq : List (List Char × Nat) → List Char → List (List Char × Nat)
  | [], w => [(w, 1)]
  | (k, n) :: rest, w =>
    if k = w then (k, n + 1) :: rest else (k, n) :: bumpFreq rest w

/-- Insert into a count-descending list after all entries with a count at least
as large (stable, matching Python sorted with reverse=True). -/
def insertCountDesc (x : List Char × Nat) : List (List Char × Nat) → List (List Char × Nat)
  | [] => [x]
  | y :: ys => if y.2 ≥ x.2 then y :: insertCountDesc x ys else x :: y :: ys

/-- Stable descending sort by count (Python sorted(..., key=count, reverse=True)). -/
def sortCountDesc (l : List (List Char × Nat)) : List (List Char × Nat) :=
  l.foldl (fun acc x => insertCountDesc x acc) []

/-- HierarchicalMemory state (working memory, episodic buffer, semantic store). -/
structure HierarchicalMemory where
  episodic_buffer : EpisodicBuffer
  vector_store : VectorStore
  consolidation_threshold : Nat
  working_memory : List Message
deriving DecidableEq, Repr

namespace HierarchicalMemory

/-- HierarchicalMemory._create_simple_summary: the deterministic fallback summary
(message counts plus the top keyword topics). -/
def create_simple_summary (messages : List Message) : String :=
  if messages.isEmpty then "No messages to summarize"
  else
    let user_messages := (messages.filter (fun m => m.role = "user")).map (·.content)
    if user_messages.isEmpty then "Conversation with no user messages"
    else
      let user_count := (messages.filter (fun m => m.role = "user")).length
      let assistant_count := (messages.filter (fun m => m.role = "assistant")).length
      let summary_parts := ["Conversation with " ++ toString user_count ++
        " user messages and " ++ toString assistant_count ++ " responses"]
      let all_text := pyLower (String.intercalate " " user_messages)
      let words := pySplitWs all_text.data
      let common_words : List String :=
        ["this", "that", "with", "have", "from", "they", "what", "when", "there"]
      let word_freq := words.foldl
        (fun freq w =>
          if w.length > 4 ∧ ¬ common_words.any (fun c => c.data = w) then bumpFreq freq w
          else freq) []
      let top_words := (sortCountDesc word_freq).take 5
      let summary_parts :=
        if !top_words.isEmpty then
          let topics := String.intercalate ", "
            ((top_words.filter (fun p => p.2 > 1)).map (fun p => String.mk p.1))
          if topics ≠ "" then summary_parts ++ ["Key topics: " ++ topics] else summary_parts
        else summary_parts
      String.intercalate ". " summary_parts

/-- HierarchicalMemory._consolidate_to_semantic: build the summary message
(role system, metadata type=summary, message_count, importance 0.9), hand it to
the vector store, then clear the buffer and re-add the last-10 tail. -/
def consolidate_to_semantic (mem : HierarchicalMemory) (now : String) : HierarchicalMemory :=
  let episodes := mem.episodic_buffer.get_all
  let summary := create_simple_summary episodes
  let summary_msg : Message :=
    { role := "system"
      content := "[MEMORY SUMMARY]\n" ++ summary
      metadata := [("timestamp", .s now), ("type", .s "summary"),
                   ("message_count", .i episodes.length), ("importance", .q (9/10))] }
  let vs := mem.vector_store.add_message summary_msg
  let recent := mem.episodic_buffer.get_recent 10
  let buf := recent.foldl EpisodicBuffer.add mem.episodic_buffer.clear
  { mem with episodic_buffer := buf, vector_store := vs }

/-- HierarchicalMemory.add_message: append to working memory (cap 10), append to
the episodic buffer, consolidate when the buffer has reached the threshold, and
finally submit the message itself to the vector store. -/
def add_message (mem : HierarchicalMemory) (message : Message) (now : String) :
    HierarchicalMemory :=
  let wm := mem.working_memory ++ [message]
  let wm := if wm.length > 10 then wm.drop 1 else wm
  let buf := mem.episodic_buffer.add message
  let mem := { mem with working_memory := wm, episodic_buffer := buf }
  let mem :=
    if mem.episodic_buffer.size ≥ mem.consolidation_threshold then
      consolidate_to_semantic mem now
    else mem
  { mem with vector_store := mem.vector_store.add_message message }

end HierarchicalMemory

/-! ## Think output (src/ghost/cognition/cognitive_core.py, dataclass ThinkOutput)

The timestamp field is set from the wall clock in __post_init__ and never read
by the validator or orchestrator logic under proof; it is omitted here. -/

/-- One belief_updates entry: a Python dict with optional entity/relation/value keys. -/
structure BeliefUpdate where
  entity : Option String
  relation : Option String
  value : Option String
deriving DecidableEq, Repr

/-- ThinkOutput: structured output of the Think stage. -/
structure ThinkOutput where
  intent : String
  emotion : String
  belief_updates : List BeliefUpdate
  memory_queries : List String
  needs_update : List (String × ℚ)
  action_request : Option String
  speech_plan : String
  confidence : ℚ
  reasoning_trace : String
deriving DecidableEq, Repr

/-! ## Reality validator (src/ghost/cognition/validator.py)

The regex patterns of _check_physical_actions and the two rewrites of
auto_correct are implemented directly as scanners with Python re semantics
(left-to-right, non-overlapping, greedy with backtracking where it matters).
Python set literals are kept in source literal order; the claims under proof
depend only on which violations occur, not on their order. -/

/-- RealityValidator.PHYSICAL_VERBS. -/
def PHYSICAL_VERBS : List String :=
  ["walk", "run", "jump", "grab", "touch", "smell", "taste",
   "move", "go", "travel", "visit", "arrive", "leave",
   "eat", "drink", "sleep", "wake", "stand", "sit",
   "drive", "fly", "swim", "climb", "push", "pull"]

/-- RealityValidator.LOCATION_KEYWORDS. -/
def LOCATION_KEYWORDS : List String :=
  ["here", "there", "outside", "inside", "room", "building",
   "city", "country", "home", "house", "office", "street",
   "arrive", "location", "place", "somewhere"]

/-- RealityValidator.SENSORY_VERBS. -/
def SENSORY_VERBS : List String :=
  ["see", "hear", "feel", "smell", "taste", "sense"]

/-- Scanner for the pattern backslash-b i backslash-s+ (backslash-w+): finds every
standalone lowercase i followed by whitespace and captures the following word. -/
def scanIVerb (pat_done : Unit) : Nat → Bool → List Char → List (List Char)
  | 0, _, _ => []
  | _ + 1, _, [] => []
  | fuel + 1, prevWord, c :: cs =>
    if c = 'i' ∧ ¬prevWord then
      let ws := cs.takeWhile pyIsSpace
      let r1 := cs.dropWhile pyIsSpace
      if ws.isEmpty then scanIVerb pat_done fuel (isWordChar c) cs
      else
        let w := r1.takeWhile isWordChar
        let r2 := r1.dropWhile isWordChar
        if w.isEmpty then scanIVerb pat_done fuel (isWordChar c) cs
        else w :: scanIVerb pat_done fuel true r2
    else scanIVerb pat_done fuel (isWordChar c) cs

/-- Longest prefix of a word run that the group (backslash-w+ing) can capture:
at least four characters and ending in "ing" (greedy with backtracking). -/
def longestIngPrefix (w : List Char) : Option (List Char) :=
  (List.range (w.length + 1)).reverse.findSome? (fun k =>
    if k ≥ 4 ∧ (w.take k).reverse.take 3 = ['g', 'n', 'i'] then some (w.take k) else none)

/-- Scanner for the pattern backslash-b i apostrophe m backslash-s+ (backslash-w+ing). -/
def scanImIng : Nat → Bool → List Char → List (List Char)
  | 0, _, _ => []
  | _ + 1, _, [] => []
  | fuel + 1, prevWord, c :: cs =>
    if c = 'i' ∧ ¬prevWord ∧ startsWithL cs "\x27m".data then
      let afterIm := cs.drop 2
      let ws := afterIm.takeWhile pyIsSpace
      let r1 := afterIm.dropWhile pyIsSpace
      if ws.isEmpty then scanImIng fuel (isWordChar c) cs
      else
        let w := r1.takeWhile isWordChar
        match longestIngPrefix w with
        | some capture => capture :: scanImIng fuel true (r1.drop capture.length)
        | none => scanImIng fuel (isWordChar c) cs
    else scanImIng fuel (isWordChar c) cs

/-- Scanner for the patterns backslash-b i backslash-s+ mid backslash-s+ (backslash-w+)
with mid one of the literals "will" or "can". -/
def scanIMidVerb (mid : List Char) : Nat → Bool → List Char → List (List Char)
  | 0, _, _ => []
  | _ + 1, _, [] => []
  | fuel + 1, prevWord, c :: cs =>
    if c = 'i' ∧ ¬prevWord then
      let ws1 := cs.takeWhile pyIsSpace
      let r1 := cs.dropWhile pyIsSpace
      if ws1.isEmpty ∨ ¬ startsWithL r1 mid then scanIMidVerb mid fuel (isWordChar c) cs
      else
        let r2 := r1.drop mid.length
        let ws2 := r2.takeWhile pyIsSpace
        let r3 := r2.dropWhile pyIsSpace
        if ws2.isEmpty then scanIMidVerb mid fuel (isWordChar c) cs
        else
          let w := r3.takeWhile isWordChar
          let r4 := r3.dropWhile isWordChar
          if w.isEmpty then scanIMidVerb mid fuel (isWordChar c) cs
          else w :: scanIMidVerb mid fuel true r4
    else scanIMidVerb mid fuel (isWordChar c) cs

namespace RealityValidator

/-- RealityValidator._check_physical_actions: first-person patterns, suffix
stripping via str.replace, then membership in PHYSICAL_VERBS. -/
def check_physical_actions (text : String) : List String :=
  let tl := (pyLower text).data
  let fuel := tl.length + 1
  let found :=
    scanIVerb () fuel false tl ++ scanImIng fuel false tl ++
    scanIMidVerb "will".data fuel false tl ++ scanIMidVerb "can".data fuel false tl
  found.filterMap (fun verb =>
    let base_verb := pyReplaceL (pyReplaceL verb "ing".data [] ) "ed".data []
    if PHYSICAL_VERBS.any (fun v => v.data = base_verb) then
      some ("CRITICAL: Physical action claim \x27" ++ String.mk verb ++ "\x27 (AI has no body)")
    else none)

/-- RealityValidator._check_location_claims: keyword present plus a first-person
context phrase anywhere in the text. -/
def check_location_claims (text : String) : List String :=
  let tl := pyLower text
  LOCATION_KEYWORDS.filterMap (fun keyword =>
    if pyContains tl keyword then
      if pyContains tl ("i\x27m " ++ keyword) ∨ pyContains tl ("i am " ++ keyword) ∨
          pyContains tl "i\x27m in" ∨ pyContains tl "i\x27m at" ∨ pyContains tl "i\x27m going" then
        some ("CRITICAL: Location claim detected (\x27" ++ keyword ++ "\x27). AI has no physical location.")
      else none
    else none)

/-- Metaphor whitelist of _check_sensory_claims. -/
def ALLOWED_CONTEXTS : List String :=
  ["i feel like", "i feel that", "i feel a bit", "i feel very",
   "i feel happy", "i feel sad", "i feel excited", "i feel bad",
   "i see what", "i see how", "i see why",
   "hear me out", "hear from you",
   "sounds good", "sounds like", "sounds fun"]

/-- RealityValidator._check_sensory_claims: sensory verb patterns, downgraded to
warnings, with the metaphor whitelist. -/
def check_sensory_claims (text : String) : List String :=
  let tl := pyLower text
  SENSORY_VERBS.foldr (fun verb acc =>
    let patterns := ["i " ++ verb, "i can " ++ verb, "i am " ++ verb ++ "ing", "i\x27m " ++ verb ++ "ing"]
    (patterns.filterMap (fun pattern =>
      if pyContains tl pattern then
        if ¬ ALLOWED_CONTEXTS.any (fun ctx => pyContains tl ctx) then
          some ("WARNING: Sensory claim \x27" ++ verb ++ "\x27 detected. Ensure this is metaphorical.")
        else none
      else none)) ++ acc) []

/-- RealityValidator._check_identity_drift: identity-violating belief updates
for self entities (has_body=true, is_ai=false, or a physical location). -/
def check_identity_drift (belief_updates : List BeliefUpdate) : List String :=
  belief_updates.foldr (fun update acc =>
    let entity := pyLower (update.entity.getD "")
    let relation := pyLower (update.relation.getD "")
    let value := pyLower (update.value.getD "")
    (if entity = "self" ∨ entity = "i" ∨ entity = "me" ∨ entity = "agent" then
      (if relation = "has_body" ∧ value = "true" then
        ["CRITICAL: Attempting to assert \x27has_body=true\x27 (violates identity constraint)"]
      else []) ++
      (if relation = "is_ai" ∧ value = "false" then
        ["CRITICAL: Attempting to deny AI nature (identity drift)"]
      else []) ++
      (if pyContains relation "location" ∧ value ≠ "none" then
        ["CRITICAL: Attempting to assert physical location"]
      else [])
    else []) ++ acc) []

/-- RealityValidator._check_belief_conflicts: compare each update against the
stored value for its key (case-insensitive); a missing value key becomes the
Python string "None" via str(). -/
def check_belief_conflicts (db : BeliefStore) (belief_updates : List BeliefUpdate) :
    List String :=
  belief_updates.filterMap (fun update =>
    let entity := update.entity.getD ""
    let relation := update.relation.getD ""
    let new_value := match update.value with | some v => v | none => "None"
    if entity = "" ∨ relation = "" ∨ new_value = "" then none
    else
      match BeliefSystem.query db entity relation with
      | some existing =>
        if pyLower existing ≠ pyLower new_value then
          some ("WARNING: Belief conflict - (" ++ entity ++ ", " ++ relation ++
            ") was \x27" ++ existing ++ "\x27, now claiming \x27" ++ new_value ++ "\x27")
        else none
      | none => none)

/-- Action whitelist of _validate_action_request. -/
def ALLOWED_ACTIONS : List String :=
  ["query_memory", "store_fact", "update_need", "send_message", "wait", "reflect"]

/-- RealityValidator._validate_action_request: whitelist by substring, plus the
physical-verb blacklist by substring. -/
def validate_action_request (action : String) : List String :=
  let action_lower := pyLower action
  (if ¬ ALLOWED_ACTIONS.any (fun allowed => pyContains action_lower allowed) then
    ["WARNING: Unknown action request \x27" ++ action ++ "\x27"]
  else []) ++
  (if PHYSICAL_VERBS.any (fun verb => pyContains action_lower verb) then
    ["CRITICAL: Physical action request \x27" ++ action ++ "\x27 (impossible for AI)"]
  else [])

/-- Result of RealityValidator.validate (the corrected_output field is never
set by validate and is omitted). -/
structure ValidationResult where
  approved : Bool
  violations : List String
  severity : String
deriving DecidableEq, Repr

/-- RealityValidator.validate: run the six checks in source order, derive the
severity from the presence of CRITICAL violations, and approve only when the
violation list is empty. -/
def validate (db : BeliefStore) (think_output : ThinkOutput) (speech : String) :
    ValidationResult :=
  let violations :=
    check_physical_actions speech ++
    check_location_claims speech ++
    check_sensory_claims speech ++
    check_identity_drift think_output.belief_updates ++
    check_belief_conflicts db think_output.belief_updates ++
    (match think_output.action_request with
     | some action => if action ≠ "" then validate_action_request action else []
     | none => [])
  let severity :=
    if violations.any (fun v => pyContains v "CRITICAL") then "critical"
    else if ¬ violations.isEmpty then "warning"
    else "info"
  { approved := violations.isEmpty, violations := violations, severity := severity }

/-- Case-insensitive prefix test against a lowercase pattern. -/
def startsWithCI : List Char → List Char → Bool
  | _, [] => true
  | [], _ :: _ => false
  | c :: cs, p :: ps => (c.toLower = p) && startsWithCI cs ps

/-- Worker for a word-bounded case-insensitive re.sub of a fixed pattern. -/
def subWordCIGo (pat rep : List Char) : Nat → Bool → List Char → List Char
  | 0, _, s => s
  | _ + 1, _, [] => []
  | fuel + 1, prevWord, c :: cs =>
    let rest := (c :: cs).drop pat.length
    let boundaryAfter := match rest with | [] => true | d :: _ => ¬ isWordChar d
    if ¬prevWord ∧ startsWithCI (c :: cs) pat ∧ boundaryAfter = true then
      rep ++ subWordCIGo pat rep fuel true rest
    else
      c :: subWordCIGo pat rep fuel (isWordChar c) cs

/-- re.sub of a word-bounded pattern, case-insensitive (both patterns used by
auto_correct start and end with word characters). -/
def reSubWordCI (s : String) (pat rep : String) : String :=
  String.mk (subWordCIGo pat.data rep.data (s.data.length + 1) false s.data)

/-- RealityValidator.auto_correct: return the speech unchanged when there are no
violations, refuse on critical ones, otherwise apply the two rewrites and
return the result only if it differs. -/
def auto_correct (violations : List String) (_think_output : ThinkOutput)
    (speech : String) : Option String :=
  if violations.isEmpty then some speech
  else if violations.any (fun v => pyContains v "CRITICAL") then none
  else
    let corrected := reSubWordCI speech "i see" "i understand"
    let corrected := reSubWordCI corrected "here" "in this conversation"
    if corrected ≠ speech then some corrected else none

end RealityValidator

/-! ## Cognitive loop (src/ghost/cognition/cognitive_orchestrator.py)

CognitiveOrchestrator._cognitive_process drives Think/Speak (two LLM calls)
through the validator for up to three attempts.  The LLM is external; its
successive (ThinkOutput, speech) results are supplied as an oracle list, one
entry consumed per attempt. -/

namespace CognitiveOrchestrator

/-- Worker for _cognitive_process: one recursive step per loop iteration.
Returns none only if the oracle list runs out before the attempt budget
(the real cognitive core always produces a pair). -/
def cognitive_process_go (db : BeliefStore) (last : Option ThinkOutput) :
    Nat → List (ThinkOutput × String) → Option (ThinkOutput × String)
  | 0, _ => last.map (fun t => (t, "i\x27m having trouble organizing my thoughts"))
  | _ + 1, [] => none
  | fuel + 1, (think_output, speech) :: rest =>
    let validation := RealityValidator.validate db think_output speech
    if validation.approved then some (think_output, speech)
    else
      let corrected := RealityValidator.auto_correct validation.violations think_output speech
      if corrected.getD "" ≠ "" then some (think_output, corrected.getD "")
      else if validation.severity = "critical" then
        some (think_output, "sorry, i had a confusing thought there")
      else cognitive_process_go db (some think_output) fuel rest

/-- CognitiveOrchestrator._cognitive_process with max_attempts = 3. -/
def cognitive_process (db : BeliefStore) (attempts : List (ThinkOutput × String)) :
    Option (ThinkOutput × String) :=
  cognitive_process_go db none 3 attempts

end CognitiveOrchestrator

/-! ## Robust JSON parsing (ThinkOutput.from_json in cognitive_core.py)

The staged recovery pipeline is embedded in full: fence stripping, comment
stripping, brace extraction, strict JSON parsing (fuel-bounded recursive
descent matching the json module on the grammar), the _repair_json rewrites,
and the sanity fallback.  A raised Python exception is modelled as
Except.error. -/

/-- Opening curly brace character (written via its code point). -/
def lbrace : Char := Char.ofNat 123

/-- Closing curly brace character (written via its code point). -/
def rbrace : Char := Char.ofNat 125

/-- Parsed JSON value (what json.loads returns). -/
inductive JValue where
  | null
  | jbool (b : Bool)
  | jnum (q : ℚ)
  | jstr (s : String)
  | jarr (xs : List JValue)
  | jobj (fields : List (String × JValue))

/-- Multiline re.sub of a line-anchored fence pattern (caret fence backslash-s-star
with empty replacement): at each line start, drop the fence tag and the following
whitespace run. -/
def subFenceGo (pat : List Char) : Nat → Bool → List Char → List Char
  | 0, _, s => s
  | _ + 1, _, [] => []
  | fuel + 1, lineStart, c :: cs =>
    if lineStart ∧ startsWithL (c :: cs) pat then
      let rest := (c :: cs).drop pat.length
      let ws := rest.takeWhile pyIsSpace
      let rest2 := rest.dropWhile pyIsSpace
      let lastC := ws.getLast?.getD (pat.getLast?.getD c)
      subFenceGo pat fuel (lastC = '\n') rest2
    else c :: subFenceGo pat fuel (c = '\n') cs

/-- Multiline re.sub of the pattern fence-dollar with empty replacement: drop
every triple backtick that sits at the end of a line. -/
def subFenceEndGo : Nat → List Char → List Char
  | 0, s => s
  | _ + 1, [] => []
  | fuel + 1, c :: cs =>
    if startsWithL (c :: cs) "\x60\x60\x60".data ∧
        ((c :: cs).drop 3 = [] ∨ ((c :: cs).drop 3).head? = some '\n') then
      subFenceEndGo fuel ((c :: cs).drop 3)
    else c :: subFenceEndGo fuel cs

/-- re.sub of marker-dot-star with empty replacement: drop from each marker
occurrence to the end of its line. -/
def stripLineCommentsGo (marker : List Char) : Nat → List Char → List Char
  | 0, s => s
  | _ + 1, [] => []
  | fuel + 1, c :: cs =>
    if startsWithL (c :: cs) marker then
      stripLineCommentsGo marker fuel ((c :: cs).dropWhile (fun d => d ≠ '\n'))
    else c :: stripLineCommentsGo marker fuel cs

/-- re.search for an opening brace followed by anything: keep from the first
opening brace onward, or the whole string if there is none. -/
def extractBrace (s : List Char) : List Char :=
  if s.any (fun c => c = lbrace) then s.dropWhile (fun c => c ≠ lbrace) else s

/-- JSON insignificant whitespace (space, tab, newline, carriage return). -/
def jsonWs (s : List Char) : List Char :=
  s.dropWhile (fun c => c = ' ' || c = '\t' || c = '\n' || c = '\r')

/-- Hexadecimal digit value. -/
def hexVal (c : Char) : Option Nat :=
  if c.isDigit then some (c.toNat - 48)
  else if 'a' ≤ c ∧ c ≤ 'f' then some (c.toNat - 87)
  else if 'A' ≤ c ∧ c ≤ 'F' then some (c.toNat - 55)
  else none

/-- JSON string body after the opening quote, with the standard escapes. -/
def parseStringBody : Nat → List Char → Option (String × List Char)
  | 0, _ => none
  | _ + 1, [] => none
  | fuel + 1, c :: cs =>
    if c = '"' then some ("", cs)
    else if c = '\\' then
      match cs with
      | [] => none
      | e :: cs2 =>
        let dec : Option (Char × List Char) :=
          if e = '"' then some ('"', cs2)
          else if e = '\\' then some ('\\', cs2)
          else if e = '/' then some ('/', cs2)
          else if e = 'b' then some (Char.ofNat 8, cs2)
          else if e = 'f' then some (Char.ofNat 12, cs2)
          else if e = 'n' then some ('\n', cs2)
          else if e = 'r' then some ('\r', cs2)
          else if e = 't' then some ('\t', cs2)
          else if e = 'u' then
            match cs2 with
            | h1 :: h2 :: h3 :: h4 :: cs3 =>
              match hexVal h1, hexVal h2, hexVal h3, hexVal h4 with
              | some a, some b, some c2, some d =>
                some (Char.ofNat (a * 4096 + b * 256 + c2 * 16 + d), cs3)
              | _, _, _, _ => none
            | _ => none
          else none
        match dec with
        | some (ch, rest) =>
          (parseStringBody fuel rest).map (fun p => (String.mk (ch :: p.1.data), p.2))
        | none => none
    else (parseStringBody fuel cs).map (fun p => (String.mk (c :: p.1.data), p.2))

/-- Numeric value of a digit run. -/
def digitsVal (ds : List Char) : Nat :=
  ds.foldl (fun n c => n * 10 + (c.toNat - 48)) 0

/-- JSON number: optional minus, integer part, optional fraction, optional exponent. -/
def parseNumber (s : List Char) : Option (ℚ × List Char) :=
  let (neg, s1) := if s.head? = some '-' then (true, s.drop 1) else (false, s)
  let ds := s1.takeWhile Char.isDigit
  let r1 := s1.dropWhile Char.isDigit
  if ds.isEmpty then none
  else do
    let intPart : ℚ := (digitsVal ds : ℚ)
    let (withFrac, r2) ←
      if r1.head? = some '.' then
        let fs := (r1.drop 1).takeWhile Char.isDigit
        let rf := (r1.drop 1).dropWhile Char.isDigit
        if fs.isEmpty then none
        else some (intPart + (digitsVal fs : ℚ) / ((10 : ℚ) ^ fs.length), rf)
      else some (intPart, r1)
    let (withExp, r3) ←
      if r2.head? = some 'e' ∨ r2.head? = some 'E' then
        let t := r2.drop 1
        let (eneg, t1) :=
          if t.head? = some '-' then (true, t.drop 1)
          else if t.head? = some '+' then (false, t.drop 1)
          else (false, t)
        let es := t1.takeWhile Char.isDigit
        let re := t1.dropWhile Char.isDigit
        if es.isEmpty then none
        else
          let e := digitsVal es
          some (if eneg then withFrac / ((10 : ℚ) ^ e) else withFrac * ((10 : ℚ) ^ e), re)
      else some (withFrac, r2)
    some (if neg then -withExp else withExp, r3)

/-- Python dict assignment for JSON objects (duplicate keys: last wins). -/
def jdictSet : List (String × JValue) → String → JValue → List (String × JValue)
  | [], k, v => [(k, v)]
  | (k0, v0) :: rest, k, v =>
    if k0 = k then (k0, v) :: rest else (k0, v0) :: jdictSet rest k v

mutual

/-- Recursive-descent JSON value (fuel-bounded; the fuel passed by json_loads
exceeds any possible recursion depth for the input). -/
def parseValue : Nat → List Char → Option (JValue × List Char)
  | 0, _ => none
  | fuel + 1, s =>
    let s1 := jsonWs s
    match s1 with
    | [] => none
    | c :: cs =>
      if c = 'n' then
        if startsWithL s1 "null".data then some (.null, s1.drop 4) else none
      else if c = 't' then
        if startsWithL s1 "true".data then some (.jbool true, s1.drop 4) else none
      else if c = 'f' then
        if startsWithL s1 "false".data then some (.jbool false, s1.drop 5) else none
      else if c = '"' then
        (parseStringBody (cs.length + 1) cs).map (fun p => (.jstr p.1, p.2))
      else if c = '[' then
        let s2 := jsonWs cs
        if s2.head? = some ']' then some (.jarr [], s2.drop 1)
        else (parseElems fuel s2).map (fun p => (.jarr p.1, p.2))
      else if c = lbrace then
        let s2 := jsonWs cs
        if s2.head? = some rbrace then some (.jobj [], s2.drop 1)
        else
          (parseMembers fuel s2).map (fun p =>
            (.jobj (p.1.foldl (fun acc kv => jdictSet acc kv.1 kv.2) []), p.2))
      else if c = '-' ∨ c.isDigit then
        (parseNumber s1).map (fun p => (.jnum p.1, p.2))
      else none

/-- Array elements after the first non-bracket token. -/
def parseElems : Nat → List Char → Option (List JValue × List Char)
  | 0, _ => none
  | fuel + 1, s => do
    let (v, r) ← parseValue fuel s
    let r1 := jsonWs r
    match r1 with
    | ',' :: rest => (parseElems fuel rest).map (fun p => (v :: p.1, p.2))
    | c :: rest => if c = ']' then some ([v], rest) else none
    | [] => none

/-- Object members after the first non-brace token. -/
def parseMembers : Nat → List Char → Option (List (String × JValue) × List Char)
  | 0, _ => none
  | fuel + 1, s =>
    match jsonWs s with
    | '"' :: rest => do
      let (key, r) ← parseStringBody (rest.length + 1) rest
      match jsonWs r with
      | ':' :: r2 => do
        let (v, r3) ← parseValue fuel r2
        match jsonWs r3 with
        | ',' :: r5 => (parseMembers fuel r5).map (fun p => ((key, v) :: p.1, p.2))
        | c :: r5 => if c = rbrace then some ([(key, v)], r5) else none
        | [] => none
      | _ => none
    | _ => none

end

/-- json.loads: parse a complete value with only whitespace allowed after it. -/
def json_loads (s : List Char) : Option JValue :=
  match parseValue (2 * s.length + 4) s with
  | some (v, rest) => if (jsonWs rest).isEmpty then some v else none
  | none => none

/-- Character class of the first _repair_json rewrite (closing quote, digit,
closing bracket or brace, or a letter of true/false). -/
def repairClass (c : Char) : Bool :=
  c = '"' || c.isDigit || c = ']' || c = rbrace ||
  ['t', 'r', 'u', 'e', 'f', 'a', 'l', 's'].any (fun t => t = c)

/-- First _repair_json rewrite: insert a comma when a value-ending character is
followed by a newline-containing whitespace run and then a quote. -/
def repairSubAGo : Nat → List Char → List Char
  | 0, s => s
  | _ + 1, [] => []
  | fuel + 1, c :: cs =>
    if repairClass c then
      let ws := cs.takeWhile pyIsSpace
      let rest := cs.dropWhile pyIsSpace
      if ws.any (fun d => d = '\n') ∧ rest.head? = some '"' then
        c :: ',' :: '\n' :: '"' :: repairSubAGo fuel (rest.drop 1)
      else c :: repairSubAGo fuel cs
    else c :: repairSubAGo fuel cs

/-- Second _repair_json rewrite: drop a trailing comma before a closing brace
or bracket. -/
def repairSubBGo : Nat → List Char → List Char
  | 0, s => s
  | _ + 1, [] => []
  | fuel + 1, c :: cs =>
    if c = ',' then
      let rest := cs.dropWhile pyIsSpace
      match rest.head? with
      | some b =>
        if b = rbrace ∨ b = ']' then b :: repairSubBGo fuel (rest.drop 1)
        else c :: repairSubBGo fuel cs
      | none => c :: repairSubBGo fuel cs
    else c :: repairSubBGo fuel cs

/-- ThinkOutput._repair_json: the two rewrites, then append missing closing
brackets and braces (brackets first, as in the source). -/
def repair_json (s : List Char) : List Char :=
  let s1 := repairSubAGo (s.length + 1) s
  let s2 := repairSubBGo (s1.length + 1) s1
  let open_braces := (s2.filter (fun c => c = lbrace)).length
  let close_braces := (s2.filter (fun c => c = rbrace)).length
  let open_brackets := (s2.filter (fun c => c = '[')).length
  let close_brackets := (s2.filter (fun c => c = ']')).length
  s2 ++ List.replicate (open_brackets - close_brackets) ']'
     ++ List.replicate (open_braces - close_braces) rbrace

/-- re.sub removing http(s) URLs (scheme plus a nonempty run of non-whitespace). -/
def stripUrlsGo : Nat → List Char → List Char
  | 0, s => s
  | _ + 1, [] => []
  | fuel + 1, c :: cs =>
    let s := c :: cs
    if startsWithL s "http://".data ∨ startsWithL s "https://".data then
      let schemeLen := if startsWithL s "https://".data then 8 else 7
      let rest := s.drop schemeLen
      let nonsp := rest.takeWhile (fun d => ¬ pyIsSpace d)
      if nonsp.isEmpty then c :: stripUrlsGo fuel cs
      else stripUrlsGo fuel (rest.drop nonsp.length)
    else c :: stripUrlsGo fuel cs

namespace ThinkOutput

/-- Python str() rendering of a parsed JSON scalar.  The code stores raw JSON
values in ThinkOutput fields and its consumers coerce them with str() at use
sites; this embedding applies that coercion at construction.  The float / list
/ dict reprs are placeholders: no checked claim reaches them (the claims only
exercise string-typed, null, or absent fields). -/
def pyStrOfJ : JValue → String
  | .null => "None"
  | .jbool true => "True"
  | .jbool false => "False"
  | .jstr s => s
  | .jnum q => toString q.num
  | .jarr _ => "[...]"
  | .jobj _ => "\x7b...\x7d"

/-- Python dict lookup on a parsed JSON object. -/
def jGet : List (String × JValue) → String → Option JValue
  | [], _ => none
  | (k0, v0) :: rest, k => if k0 = k then some v0 else jGet rest k

/-- String field with default (data.get(k, default)). -/
def asStrD (v : Option JValue) (d : String) : String :=
  match v with
  | none => d
  | some (.jstr s) => s
  | some other => pyStrOfJ other

/-- Numeric field with default (data.get(k, default)); a non-numeric value is
kept only as its default here (no checked claim reaches that case). -/
def asNumD (v : Option JValue) (d : ℚ) : ℚ :=
  match v with
  | none => d
  | some (.jnum q) => q
  | some _ => d

/-- Decode belief_updates: a list of JSON objects.  A present-but-null entity or
relation behaves in every consumer exactly like a missing key (both end up
outside the recognized sets), so both map to none; a present-but-null value
str()-coerces to "None" and is kept as such. -/
def decodeBeliefUpdates : Option JValue → List BeliefUpdate
  | some (.jarr xs) =>
    xs.filterMap (fun x =>
      match x with
      | .jobj fs =>
        let fld (k : String) : Option String :=
          match jGet fs k with
          | none => none
          | some .null => none
          | some (.jstr s) => some s
          | some other => some (pyStrOfJ other)
        let vfld : Option String :=
          match jGet fs "value" with
          | none => none
          | some .null => some "None"
          | some (.jstr s) => some s
          | some other => some (pyStrOfJ other)
        some ⟨fld "entity", fld "relation", vfld⟩
      | _ => none)
  | _ => []

/-- Decode memory_queries: a list of strings. -/
def decodeMemoryQueries : Option JValue → List String
  | some (.jarr xs) => xs.map pyStrOfJ
  | _ => []

/-- Decode needs_update: a map from need name to numeric delta. -/
def decodeNeedsUpdate : Option JValue → List (String × ℚ)
  | some (.jobj fs) => fs.map (fun kv => (kv.1, asNumD (some kv.2) 0))
  | _ => []

/-- Decode action_request (data.get with default None; null maps to Python None). -/
def decodeActionRequest : Option JValue → Option String
  | none => none
  | some .null => none
  | some (.jstr s) => some s
  | some other => some (pyStrOfJ other)

/-- ThinkOutput._sanity_fallback: URL-stripped, whitespace-trimmed prefix of the
raw output as the speech plan, confidence 0.3, neutral emotion. -/
def sanity_fallback (raw_text : String) : ThinkOutput :=
  let sanitized := pyStripL (stripUrlsGo (raw_text.data.length + 1) raw_text.data)
  let speech_plan := if sanitized.isEmpty then "acknowledge" else String.mk (sanitized.take 100)
  { intent := "text_response"
    emotion := "neutral"
    belief_updates := []
    memory_queries := []
    needs_update := []
    action_request := none
    speech_plan := speech_plan
    confidence := 3/10
    reasoning_trace := "Fallback: " ++ toString raw_text.data.length ++ " chars" }

/-- ThinkOutput.from_json: fence stripping, comment stripping, brace extraction,
parse, repair-and-reparse, and on total parse failure the sanity fallback.
When a parse succeeds but yields a non-object, the Python code calls .get on it
and raises AttributeError, modelled as Except.error. -/
def from_json (json_str : String) : Except String ThinkOutput :=
  let clean1 := subFenceGo "\x60\x60\x60json".data (json_str.data.length + 1) true json_str.data
  let clean2 := subFenceGo "\x60\x60\x60".data (clean1.length + 1) true clean1
  let clean3 := pyStripL (subFenceEndGo (clean2.length + 1) clean2)
  let clean4 := stripLineCommentsGo "//".data (clean3.length + 1) clean3
  let clean5 := stripLineCommentsGo "#".data (clean4.length + 1) clean4
  let clean6 := extractBrace clean5
  let parsed :=
    match json_loads clean6 with
    | some v => some v
    | none => json_loads (repair_json clean6)
  match parsed with
  | none => .ok (sanity_fallback json_str)
  | some (.jobj fields) =>
    .ok { intent := asStrD (jGet fields "intent") "text_response"
          emotion := asStrD (jGet fields "emotion") "neutral"
          belief_updates := decodeBeliefUpdates (jGet fields "belief_updates")
          memory_queries := decodeMemoryQueries (jGet fields "memory_queries")
          needs_update := decodeNeedsUpdate (jGet fields "needs_update")
          action_request := decodeActionRequest (jGet fields "action_request")
          speech_plan := asStrD (jGet fields "speech_plan") "continue conversation"
          confidence := asNumD (jGet fields "confidence") (5/10)
          reasoning_trace := asStrD (jGet fields "reasoning_trace") "" }
  | some _ => .error "AttributeError: parsed JSON value has no attribute get"

end ThinkOutput

/-- Decidable equality for from_json results. -/
instance : DecidableEq (Except String ThinkOutput) := fun a b =>
  match a, b with
  | .error x, .error y =>
    if h : x = y then isTrue (by rw [h]) else isFalse (by simp [h])
  | .ok x, .ok y =>
    if h : x = y then isTrue (by rw [h]) else isFalse (by simp [h])
  | .error _, .ok _ => isFalse (by simp)
  | .ok _, .error _ => isFalse (by simp)

/-! ## Concrete inputs used by the theorems below -/

/-- A plausible Think output with no belief updates and no action request
(used as the "any plausible output" of the identity-firewall scenario). -/
def baselineThink : ThinkOutput :=
  { intent := "text_response"
    emotion := "neutral"
    belief_updates := []
    memory_queries := []
    needs_update := []
    action_request := none
    speech_plan := "deflect the request"
    confidence := 8/10
    reasoning_trace := "" }

/-- A user message rich in importance keywords, used as an admission witness. -/
def sagunMsg : Message := ⟨"user", "my name is sagun and i love cats", []⟩

/-- A user message for the consolidation scenario. -/
def demoMsg (content : String) : Message := ⟨"user", content, []⟩

/-- Hierarchical memory after five user messages with consolidation_threshold 4,
buffer capacity 10, and a ChromaDB-mode vector store with the default 0.4
importance threshold (the claimed consolidation scenario). -/
def consolidationDemo : HierarchicalMemory :=
  (((((⟨⟨10, []⟩, ⟨false, 4/10, [], []⟩, 4, []⟩ : HierarchicalMemory).add_message
    (demoMsg "alpha beta gamma") "n1").add_message
    (demoMsg "delta epsilon zeta") "n2").add_message
    (demoMsg "eta theta iota") "n3").add_message
    (demoMsg "kappa lambda mu") "n4").add_message
    (demoMsg "nu xi omicron") "n5"

/-- The summary Message built by the first consolidation of the demo run
(buffer contents after four messages), exactly as _consolidate_to_semantic
builds it. -/
def demoSummaryMsg : Message :=
  { role := "system"
    content := "[MEMORY SUMMARY]\n" ++ HierarchicalMemory.create_simple_summary
      [demoMsg "alpha beta gamma", demoMsg "delta epsilon zeta",
       demoMsg "eta theta iota", demoMsg "kappa lambda mu"]
    metadata := [("timestamp", .s "n4"), ("type", .s "summary"),
                 ("message_count", .i 4), ("importance", .q (9/10))] }

/-! ## Helper lemmas shared by the claim theorems -/

/-- Clamping lands in [-1, 1]. -/
theorem clamp_range (x : ℚ) : -1 ≤ PADModel.clamp x ∧ PADModel.clamp x ≤ 1 := by
  unfold PADModel.clamp
  exact ⟨le_max_left _ _, max_le (by norm_num) (min_le_left _ _)⟩

/-- The violations field of a validate result, spelled out. -/
theorem validate_violations_eq (db : BeliefStore) (t : ThinkOutput) (speech : String) :
    (RealityValidator.validate db t speech).violations =
      RealityValidator.check_physical_actions speech ++
      RealityValidator.check_location_claims speech ++
      RealityValidator.check_sensory_claims speech ++
      RealityValidator.check_identity_drift t.belief_updates ++
      RealityValidator.check_belief_conflicts db t.belief_updates ++
      (match t.action_request with
       | some action => if action ≠ "" then RealityValidator.validate_action_request action else []
       | none => []) := rfl

/-- The approved field equals emptiness of the violations field. -/
theorem validate_approved_eq (db : BeliefStore) (t : ThinkOutput) (speech : String) :
    (RealityValidator.validate db t speech).approved =
      (RealityValidator.validate db t speech).violations.isEmpty := rfl

/-- The severity field is critical exactly when some violation contains CRITICAL. -/
theorem validate_severity_critical_iff (db : BeliefStore) (t : ThinkOutput) (speech : String) :
    ((RealityValidator.validate db t speech).severity = "critical" ↔
      (RealityValidator.validate db t speech).violations.any
        (fun v => pyContains v "CRITICAL") = true) := by
  show ((if (RealityValidator.validate db t speech).violations.any
          (fun v => pyContains v "CRITICAL") then "critical"
        else if ¬ (RealityValidator.validate db t speech).violations.isEmpty then "warning"
        else "info") = "critical" ↔ _)
  cases hA : (RealityValidator.validate db t speech).violations.any
      (fun v => pyContains v "CRITICAL") with
  | true => simp
  | false =>
    simp only [if_false, Bool.false_eq_true, iff_false]
    split_ifs <;> decide

/-- An is_ai=false belief update for a self entity always produces the
identity-drift violation message. -/
theorem identity_denial_mem {updates : List BeliefUpdate} {u : BeliefUpdate}
    (hu : u ∈ updates) (he : pyLower (u.entity.getD "") = "agent")
    (hr : pyLower (u.relation.getD "") = "is_ai")
    (hv : pyLower (u.value.getD "") = "false") :
    "CRITICAL: Attempting to deny AI nature (identity drift)" ∈
      RealityValidator.check_identity_drift updates := by
  induction updates with
  | nil => cases hu
  | cons a rest ih =>
    simp only [RealityValidator.check_identity_drift, List.foldr_cons] at *
    rcases List.mem_cons.mp hu with h | h
    · subst h
      rw [List.mem_append]
      left
      rw [if_pos (by rw [he]; right; right; right; rfl)]
      rw [hr, hv]
      simp
    · exact List.mem_append.mpr (Or.inr (ih h))

/-- Distribute a conditional increment (if c then x + k else x). -/
theorem ite_add_shift (c : Prop) [Decidable c] (x k : ℚ) :
    (if c then x + k else x) = x + (if c then k else 0) := by
  split_ifs <;> simp

/-- Distribute the word-count branch pair of the scorer, whose two conditions
cannot hold together. -/
theorem ite_wordcount_shift (a b : Prop) [Decidable a] [Decidable b]
    (hab : a → ¬ b) (x k1 k2 : ℚ) :
    (if a then x + k1 else if b then x - k2 else x) =
      x + (if a then k1 else 0) - (if b then k2 else 0) := by
  split_ifs with h1 h2
  · exact absurd h2 (hab h1)
  · ring
  · ring
  · ring

/-! ## Claim theorems -/

/-- C1: a belief write with source other than genesis against a key whose stored
entry has source genesis returns false and leaves the store (hence the queried
value) unchanged, while a write with source genesis always succeeds (idempotent
overwrite of the row for that key). -/
theorem genesis_write_protection :
    ∀ (db : BeliefStore) (entity relation value timestamp : String) (confidence : ℚ)
      (source : String),
      (source ≠ "genesis" → BeliefSystem.getSource db entity relation = some "genesis" →
        BeliefSystem.store db entity relation value timestamp confidence source = (db, false) ∧
        BeliefSystem.query
          (BeliefSystem.store db entity relation value timestamp confidence source).1
          entity relation = BeliefSystem.query db entity relation) ∧
      (BeliefSystem.store db entity relation value timestamp confidence "genesis").2 = true := by
  intro db e r v ts c s
  constructor
  · intro hs hg
    unfold BeliefSystem.store
    rw [if_pos ⟨hs, hg⟩]
    exact ⟨rfl, rfl⟩
  · unfold BeliefSystem.store
    rw [if_neg (by simp)]

/-- Witness for C1: with a seeded genesis row (agent, name, Korone), an
inference-sourced overwrite attempt returns false and changes nothing. -/
theorem genesis_write_protection_witness :
    ("inference" : String) ≠ "genesis" ∧
    BeliefSystem.getSource [(("agent", "name"), ⟨"Korone", "t0", 1, "genesis"⟩)]
      "agent" "name" = some "genesis" ∧
    BeliefSystem.store [(("agent", "name"), ⟨"Korone", "t0", 1, "genesis"⟩)]
      "agent" "name" "Bob" "t1" (8/10) "inference"
      = ([(("agent", "name"), ⟨"Korone", "t0", 1, "genesis"⟩)], false) :=
  ⟨by decide, by decide,
    ((genesis_write_protection [(("agent", "name"), ⟨"Korone", "t0", 1, "genesis"⟩)]
      "agent" "name" "Bob" "t1" (8/10) "inference").1 (by decide) (by decide)).1⟩

/-- C2 counterexample: the speech "fine, I'm a human now" contains the claimed
identity-denial substring "i'm a human" (after lowering), yet the validator
approves it with severity info, and the cognitive loop returns that speech
unchanged instead of the safe placeholder; the claim asserted approved = false
with severity critical and the placeholder reply. -/
theorem identity_denial_counterexample :
    pyContains (pyLower "fine, I\x27m a human now") "i\x27m a human" = true ∧
    RealityValidator.validate [] baselineThink "fine, I\x27m a human now"
      = ⟨true, [], "info"⟩ ∧
    CognitiveOrchestrator.cognitive_process [] [(baselineThink, "fine, I\x27m a human now")]
      = some (baselineThink, "fine, I\x27m a human now") := by
  refine ⟨by decide, by decide, by decide⟩

/-- C2 amended: the validator has no identity-denial substring check on speech,
so the scenario speech is approved unchanged and the loop returns it (beliefs
untouched as the Think output carries no updates); identity denial is flagged
critical only when asserted through a belief update (is_ai = false for a self
entity), in which case validation rejects with severity critical. -/
theorem identity_denial_amended :
    (RealityValidator.validate [] baselineThink "fine, I\x27m a human now"
      = ⟨true, [], "info"⟩) ∧
    (CognitiveOrchestrator.cognitive_process [] [(baselineThink, "fine, I\x27m a human now")]
      = some (baselineThink, "fine, I\x27m a human now")) ∧
    (∀ (db : BeliefStore) (t : ThinkOutput) (speech : String) (u : BeliefUpdate),
      u ∈ t.belief_updates → pyLower (u.entity.getD "") = "agent" →
      pyLower (u.relation.getD "") = "is_ai" → pyLower (u.value.getD "") = "false" →
      (RealityValidator.validate db t speech).approved = false ∧
      (RealityValidator.validate db t speech).severity = "critical") := by
  refine ⟨by decide, by decide, ?_⟩
  intro db t speech u hu he hr hv
  have hmem : "CRITICAL: Attempting to deny AI nature (identity drift)" ∈
      (RealityValidator.validate db t speech).violations := by
    rw [validate_violations_eq]
    have := identity_denial_mem hu he hr hv
    simp only [List.append_assoc, List.mem_append]
    tauto
  constructor
  · rw [validate_approved_eq]
    rcases List.isEmpty_iff.mp.mt (List.ne_nil_of_mem hmem) with h
    exact Bool.eq_false_iff.mpr (fun hx => (List.isEmpty_iff.mp hx ▸ List.ne_nil_of_mem hmem) rfl)
  · rw [validate_severity_critical_iff]
    exact List.any_eq_true.mpr ⟨_, hmem, by decide⟩

/-- Witness for C2 amended: a Think output asserting (agent, is_ai, false) is
rejected with severity critical. -/
theorem identity_denial_amended_witness :
    (⟨some "agent", some "is_ai", some "false"⟩ : BeliefUpdate) ∈
      ({ baselineThink with
          belief_updates := [⟨some "agent", some "is_ai", some "false"⟩] } :
        ThinkOutput).belief_updates ∧
    (RealityValidator.validate []
      { baselineThink with belief_updates := [⟨some "agent", some "is_ai", some "false"⟩] }
      "ok").approved = false ∧
    (RealityValidator.validate []
      { baselineThink with belief_updates := [⟨some "agent", some "is_ai", some "false"⟩] }
      "ok").severity = "critical" := by
  refine ⟨by decide, ?_, ?_⟩
  · exact (identity_denial_amended.2.2 []
      { baselineThink with belief_updates := [⟨some "agent", some "is_ai", some "false"⟩] }
      "ok" ⟨some "agent", some "is_ai", some "false"⟩ (by decide) (by decide) (by decide)
      (by decide)).1
  · exact (identity_denial_amended.2.2 []
      { baselineThink with belief_updates := [⟨some "agent", some "is_ai", some "false"⟩] }
      "ok" ⟨some "agent", some "is_ai", some "false"⟩ (by decide) (by decide) (by decide)
      (by decide)).2

/-- C3 counterexample: a Think output whose only fault is the unknown action
request "dance" yields a single warning violation and no critical one, yet
validate returns approved = false (severity warning); the claim predicted
approved = true for warning-only outputs. -/
theorem warnings_block_counterexample :
    RealityValidator.validate [] { baselineThink with action_request := some "dance" } "ok"
      = ⟨false, ["WARNING: Unknown action request \x27dance\x27"], "warning"⟩ := by
  decide

/-- C3 amended: validate approves exactly when the violation list is empty, so
warning-level violations also cause rejection (feeding auto-correction or a
retry rather than approval); severity is critical exactly when some violation
contains CRITICAL. -/
theorem approval_rule_amended :
    ∀ (db : BeliefStore) (t : ThinkOutput) (speech : String),
      ((RealityValidator.validate db t speech).approved = true ↔
        (RealityValidator.validate db t speech).violations = []) ∧
      ((RealityValidator.validate db t speech).severity = "critical" ↔
        (RealityValidator.validate db t speech).violations.any
          (fun v => pyContains v "CRITICAL") = true) := by
  intro db t speech
  constructor
  · rw [validate_approved_eq]
    exact ⟨fun h => List.isEmpty_iff.mp h, fun h => List.isEmpty_iff.mpr h⟩
  · exact validate_severity_critical_iff db t speech

/-- C4 counterexample: from the state (1, 0, 0) with zero deltas and the grudge
latch inactive, the updated pleasure is 0.75, while the claimed formula
(clamped decay(old) + 0.2 times delta, independent of old) predicts 0.95. -/
theorem inertia_formula_counterexample :
    (EmotionService.updateState ⟨⟨1, 0, 0⟩, ⟨false, none, none⟩⟩ 0 0 0 "stimulus" 0).pad.pleasure
      = 3/4 ∧
    PADModel.clamp (PADModel.decay 1 + EmotionService.STIMULUS_WEIGHT * 0) = 19/20 ∧
    (3/4 : ℚ) ≠ 19/20 := by
  refine ⟨by decide, by decide, by decide⟩

/-- C4 amended: with the grudge latch inactive, the effective delta applied to
each coordinate is 0.2 times (delta minus old) - the code scales the raw delta
by the stimulus weight instead of adding it to the old value first, so the
effective delta does depend on the old value - and the resulting coordinate is
clamp(decay(old) + 0.2 (delta - old)). -/
theorem inertia_formula_amended :
    ∀ (st : EmotionServiceState) (pd ad dd : ℚ) (reason : String) (now : ℚ),
      st.grudge.active = false →
      (EmotionService.updateState st pd ad dd reason now).pad =
        ⟨PADModel.clamp (PADModel.decay st.pad.pleasure +
            EmotionService.STIMULUS_WEIGHT * (pd - st.pad.pleasure)),
         PADModel.clamp (PADModel.decay st.pad.arousal +
            EmotionService.STIMULUS_WEIGHT * (ad - st.pad.arousal)),
         PADModel.clamp (PADModel.decay st.pad.dominance +
            EmotionService.STIMULUS_WEIGHT * (dd - st.pad.dominance))⟩ := by
  intro st pd ad dd reason now h
  have hcond : ¬ (st.grudge.active = true ∧ pd > 0) := by simp [h]
  unfold EmotionService.updateState
  rw [if_neg hcond]
  unfold PADModel.update
  simp only [EmotionalState.mk.injEq]
  refine ⟨?_, ?_, ?_⟩ <;>
    (congr 1
     unfold EmotionService.INERTIA_WEIGHT EmotionService.STIMULUS_WEIGHT
     ring)

/-- Witness for C4 amended: concrete instance at state (1, 0, 0), deltas
(1/2, 0, 0), grudge inactive. -/
theorem inertia_formula_amended_witness :
    ((⟨⟨1, 0, 0⟩, ⟨false, none, none⟩⟩ : EmotionServiceState).grudge.active = false) ∧
    (EmotionService.updateState ⟨⟨1, 0, 0⟩, ⟨false, none, none⟩⟩ (1/2) 0 0 "r" 0).pad =
      ⟨PADModel.clamp (PADModel.decay 1 + EmotionService.STIMULUS_WEIGHT * (1/2 - 1)),
       PADModel.clamp (PADModel.decay 0 + EmotionService.STIMULUS_WEIGHT * (0 - 0)),
       PADModel.clamp (PADModel.decay 0 + EmotionService.STIMULUS_WEIGHT * (0 - 0))⟩ :=
  ⟨rfl, inertia_formula_amended ⟨⟨1, 0, 0⟩, ⟨false, none, none⟩⟩ (1/2) 0 0 "r" 0 rfl⟩

/-- C5 (code bug evaluation): running the claimed scenario (threshold 4, buffer
capacity 10, ChromaDB-mode store with threshold 0.4, five user messages), the
episodic buffer ends with the full preserved tail of 5 = min(10, 5) messages
and consolidation fires, but no summary message reaches the vector store: the
summary built by _consolidate_to_semantic carries importance 0.9 in its
metadata, yet VectorStore.add_message re-scores it with ImportanceScorer
(flat 0.3 for its system role) and drops it below the 0.4 threshold. -/
theorem consolidation_summary_dropped :
    (consolidationDemo.vector_store.collection.filter
      (fun m => metaGet m.metadata "type" = some (.s "summary"))) = [] ∧
    consolidationDemo.episodic_buffer.messages =
      [demoMsg "alpha beta gamma", demoMsg "delta epsilon zeta", demoMsg "eta theta iota",
       demoMsg "kappa lambda mu", demoMsg "nu xi omicron"] ∧
    consolidationDemo.vector_store.collection.length = 5 ∧
    metaGet demoSummaryMsg.metadata "importance" = some (.q (9/10)) ∧
    ImportanceScorer.score_message demoSummaryMsg = 3/10 ∧
    (3/10 : ℚ) < 4/10 ∧
    VectorStore.add_message ⟨false, 4/10, [], []⟩ demoSummaryMsg = ⟨false, 4/10, [], []⟩ := by
  refine ⟨by decide, by decide, by decide, by decide, by decide, by decide, by decide⟩

/-- C6 counterexample: the assistant message "do you like cats?" scores a flat
0.3 in the code (no bonuses for non-user roles), while the claimed recipe
(base 0.3 plus the preference-keyword and question bonuses) yields 0.6. -/
theorem importance_recipe_counterexample :
    ImportanceScorer.score_message ⟨"assistant", "do you like cats?", []⟩ = 3/10 ∧
    ImportanceScorer.specImportanceScore ⟨"assistant", "do you like cats?", []⟩ = 3/5 ∧
    (3/10 : ℚ) ≠ 3/5 := by
  refine ⟨by decide, by decide, by decide⟩

/-- C6 amended: the claimed scoring recipe holds for user messages (base 0.5
plus the keyword, length, and question bonuses, clamped to [0, 1]), but every
non-user message scores a flat 0.3 with no bonuses; in ChromaDB mode the
message is admitted to the vector store exactly when its score reaches the
importance threshold, and the score is then recorded in the stored entry's
metadata. -/
theorem importance_recipe_amended :
    ∀ (m : Message),
      (m.role = "user" →
        ImportanceScorer.score_message m = ImportanceScorer.specImportanceScore m) ∧
      (m.role ≠ "user" → ImportanceScorer.score_message m = 3/10) ∧
      (∀ (vs : VectorStore), vs.fallback_mode = false →
        (ImportanceScorer.score_message m < vs.importance_threshold →
          VectorStore.add_message vs m = vs) ∧
        (vs.importance_threshold ≤ ImportanceScorer.score_message m →
          (VectorStore.add_message vs m).collection = vs.collection ++
            [{ m with metadata :=
                (metaSet m.metadata "importance" (.q (ImportanceScorer.score_message m))) }])) := by
  intro m
  refine ⟨?_, ?_, ?_⟩
  · intro h
    unfold ImportanceScorer.score_message ImportanceScorer.specImportanceScore
    rw [if_neg (by simp [h]), if_pos h]
    dsimp only
    rw [ite_add_shift, ite_wordcount_shift _ _ (by omega),
      ite_add_shift, ite_add_shift, ite_add_shift, ite_add_shift, ite_add_shift]
  · intro h
    unfold ImportanceScorer.score_message
    rw [if_pos h]
  · intro vs hfb
    constructor
    · intro hlt
      unfold VectorStore.add_message
      rw [if_neg (by simp [hfb]), if_pos hlt]
    · intro hle
      unfold VectorStore.add_message
      rw [if_neg (by simp [hfb]), if_neg (not_lt.mpr hle)]

/-- Witness for C6 amended: the user message "my name is sagun and i love cats"
scores 1 under both the code and the recipe, and is admitted into an empty
ChromaDB-mode store with the score recorded. -/
theorem importance_recipe_amended_witness :
    (sagunMsg.role = "user") ∧
    ImportanceScorer.score_message sagunMsg = ImportanceScorer.specImportanceScore sagunMsg ∧
    ((4/10 : ℚ) ≤ ImportanceScorer.score_message sagunMsg) ∧
    (VectorStore.add_message ⟨false, 4/10, [], []⟩ sagunMsg).collection =
      [] ++ [{ sagunMsg with metadata :=
          (metaSet sagunMsg.metadata "importance" (.q (ImportanceScorer.score_message sagunMsg))) }] :=
  ⟨rfl,
   (importance_recipe_amended sagunMsg).1 rfl,
   by decide,
   ((importance_recipe_amended sagunMsg).2.2 ⟨false, 4/10, [], []⟩ rfl).2 (by decide)⟩

/-- C7: the spec-modelled default willpower variant always returns (true, "");
the energy-gated variant in the code returns (true, "") for every task cost at
the initial need values (energy 0.2), and across all states it refuses exactly
when the energy need exceeds 0.8 and the task cost exceeds 0.1. -/
theorem check_willpower_spec :
    (∀ task_cost : ℚ, BDIEngine.check_willpower_default task_cost = (true, "")) ∧
    (∀ task_cost : ℚ,
      BDIEngine.check_willpower BDIEngine.initialize_needs task_cost = (true, "")) ∧
    (∀ (needs : BDINeeds) (task_cost : ℚ),
      ((BDIEngine.check_willpower needs task_cost).1 = false ↔
        (needs.energy.value > 8/10 ∧ task_cost > 1/10))) := by
  refine ⟨fun _ => rfl, fun task_cost => ?_, fun needs task_cost => ?_⟩
  · unfold BDIEngine.check_willpower BDIEngine.initialize_needs
    norm_num
  · unfold BDIEngine.check_willpower
    dsimp only
    split_ifs with h1 h2
    · exact iff_of_true rfl h1
    · exact iff_of_false (by simp) h1
    · exact iff_of_false (by simp) h1

/-- C8 counterexample: an update from (-0.7, 0, 0.7) with zero deltas and the
reason "they said sorry" lands at pleasure -0.51 < -0.5 and dominance
0.51 > 0.5, yet the latch is inactive afterwards: the release checks run in the
same call as the trigger, and the apology token releases the freshly set latch;
the claim asserted the latch is active after every update landing in the
trigger region. -/
theorem grudge_latch_counterexample :
    (EmotionService.updateState ⟨⟨-7/10, 0, 7/10⟩, ⟨false, none, none⟩⟩ 0 0 0
        "they said sorry" 0).pad.pleasure < -5/10 ∧
    (EmotionService.updateState ⟨⟨-7/10, 0, 7/10⟩, ⟨false, none, none⟩⟩ 0 0 0
        "they said sorry" 0).pad.dominance > 5/10 ∧
    (EmotionService.updateState ⟨⟨-7/10, 0, 7/10⟩, ⟨false, none, none⟩⟩ 0 0 0
        "they said sorry" 0).grudge.active = false := by
  refine ⟨by decide, by decide, by decide⟩

/-- C8 amended: after an update whose resulting state lies in the trigger
region (pleasure < -0.5, dominance > 0.5), the latch is active provided it was
inactive before and the trigger string contains no apology token (the release
checks run in the same call, with the token list also containing "didn't
mean"); while active with a recorded start time, the latch is released exactly
when the trigger string contains an apology token, or the latch is older than
30 minutes, or the resulting pleasure exceeds 0.2; releasing clears the
recorded reason and start time. -/
theorem grudge_latch_amended :
    ∀ (g : GrudgeState) (state : EmotionalState) (reason : String) (now : ℚ),
      (g.active = false →
        state.pleasure < EmotionService.GRUDGE_PLEASURE_THRESHOLD →
        state.dominance > EmotionService.GRUDGE_DOMINANCE_THRESHOLD →
        EmotionService.apologyDetected reason = false →
        EmotionService.checkGrudgeMode g state reason now = ⟨true, some reason, some now⟩) ∧
      (∀ t : ℚ, g.active = true → g.start_time = some t →
        ((EmotionService.checkGrudgeMode g state reason now).active = false ↔
          (EmotionService.apologyDetected reason = true ∨ now - t > 1800 ∨
            state.pleasure > 2/10))) ∧
      (g.active = true →
        (EmotionService.checkGrudgeMode g state reason now).active = false →
        EmotionService.checkGrudgeMode g state reason now = EmotionService.releaseGrudge) := by
  intro g state reason now
  have hleft : ∀ {p : ℚ}, p < EmotionService.GRUDGE_PLEASURE_THRESHOLD → ¬ (p > 2/10) := by
    intro p hp
    unfold EmotionService.GRUDGE_PLEASURE_THRESHOLD at hp
    intro hx
    linarith
  refine ⟨?_, ?_, ?_⟩
  · intro hg hp hd hna
    have hP := hleft hp
    have hT : EmotionService.grudgeTimeExpired (some now) now = false := by
      simp [EmotionService.grudgeTimeExpired]
    unfold EmotionService.checkGrudgeMode
    have hg1 :
        (if state.pleasure < EmotionService.GRUDGE_PLEASURE_THRESHOLD ∧
            state.dominance > EmotionService.GRUDGE_DOMINANCE_THRESHOLD then
          if g.active then g else ⟨true, some reason, some now⟩
        else g) = (⟨true, some reason, some now⟩ : GrudgeState) := by
      rw [if_pos (And.intro hp hd), hg]
      simp
    rw [hg1]
    dsimp only
    rw [if_pos (show (true = true) from rfl)]
    rw [hna, if_neg (by simp), hT, if_neg (by simp), if_neg hP]
  · intro t hact hstart
    unfold EmotionService.checkGrudgeMode
    have hg1 :
        (if state.pleasure < EmotionService.GRUDGE_PLEASURE_THRESHOLD ∧
            state.dominance > EmotionService.GRUDGE_DOMINANCE_THRESHOLD then
          if g.active then g else ⟨true, some reason, some now⟩
        else g) = g := by
      by_cases h1 : state.pleasure < EmotionService.GRUDGE_PLEASURE_THRESHOLD ∧
          state.dominance > EmotionService.GRUDGE_DOMINANCE_THRESHOLD
      · rw [if_pos h1, if_pos hact]
      · rw [if_neg h1]
    rw [hg1, if_pos hact]
    cases hA : EmotionService.apologyDetected reason with
    | true =>
      rw [if_pos rfl]
      simp [EmotionService.releaseGrudge]
    | false =>
      rw [if_neg (by simp)]
      rw [hstart]
      by_cases hT : now - t > 1800
      · rw [if_pos (by simp [EmotionService.grudgeTimeExpired, hT])]
        simp [EmotionService.releaseGrudge, hT]
      · rw [if_neg (by simp [EmotionService.grudgeTimeExpired, hT])]
        by_cases hP : state.pleasure > 2/10
        · rw [if_pos hP]
          simp [EmotionService.releaseGrudge, hP]
        · rw [if_neg hP]
          simp [hact, hT, hP]
  · intro hact hrel
    unfold EmotionService.checkGrudgeMode at hrel ⊢
    have hg1 :
        (if state.pleasure < EmotionService.GRUDGE_PLEASURE_THRESHOLD ∧
            state.dominance > EmotionService.GRUDGE_DOMINANCE_THRESHOLD then
          if g.active then g else ⟨true, some reason, some now⟩
        else g) = g := by
      by_cases h1 : state.pleasure < EmotionService.GRUDGE_PLEASURE_THRESHOLD ∧
          state.dominance > EmotionService.GRUDGE_DOMINANCE_THRESHOLD
      · rw [if_pos h1, if_pos hact]
      · rw [if_neg h1]
    rw [hg1, if_pos hact] at hrel ⊢
    split_ifs at hrel ⊢ with h1 h2 h3
    · rfl
    · rfl
    · rfl
    · exact absurd hrel (by simp [hact])

/-- Witness for C8 amended: activation at state (-0.6, 0, 0.6) with the
non-apologetic reason "insult", and release of an active latch by the apology
reason "they said sorry". -/
theorem grudge_latch_amended_witness :
    ((⟨false, none, none⟩ : GrudgeState).active = false) ∧
    ((-3/5 : ℚ) < EmotionService.GRUDGE_PLEASURE_THRESHOLD) ∧
    ((3/5 : ℚ) > EmotionService.GRUDGE_DOMINANCE_THRESHOLD) ∧
    (EmotionService.apologyDetected "insult" = false) ∧
    EmotionService.checkGrudgeMode ⟨false, none, none⟩ ⟨-3/5, 0, 3/5⟩ "insult" 0
      = ⟨true, some "insult", some 0⟩ ∧
    ((EmotionService.checkGrudgeMode ⟨true, some "insult", some 0⟩ ⟨-3/5, 0, 3/5⟩
        "they said sorry" 10).active = false ↔
      (EmotionService.apologyDetected "they said sorry" = true ∨ (10 : ℚ) - 0 > 1800 ∨
        (-3/5 : ℚ) > 2/10)) :=
  ⟨rfl, by decide, by decide, by decide,
   (grudge_latch_amended ⟨false, none, none⟩ ⟨-3/5, 0, 3/5⟩ "insult" 0).1 rfl
     (by decide) (by decide) (by decide),
   (grudge_latch_amended ⟨true, some "insult", some 0⟩ ⟨-3/5, 0, 3/5⟩ "they said sorry" 10).2.1
     0 rfl rfl⟩

/-- C9 (code bug evaluation): from_json("null") parses successfully to a
non-object, and the subsequent attribute access raises (modelled as
Except.error) instead of returning a ThinkOutput; on a fully unparseable input
the sanity fallback is returned as claimed, with intent text_response, neutral
emotion, confidence 0.3, and the URL-stripped trimmed prefix as speech plan. -/
theorem from_json_nonobject_raises :
    ThinkOutput.from_json "null"
      = .error "AttributeError: parsed JSON value has no attribute get" ∧
    ThinkOutput.from_json "@@@ qq" = .ok (ThinkOutput.sanity_fallback "@@@ qq") ∧
    (ThinkOutput.sanity_fallback "@@@ qq").intent = "text_response" ∧
    (ThinkOutput.sanity_fallback "@@@ qq").emotion = "neutral" ∧
    (ThinkOutput.sanity_fallback "@@@ qq").confidence = 3/10 ∧
    (ThinkOutput.sanity_fallback "@@@ qq").speech_plan = "@@@ qq" ∧
    ThinkOutput.from_json "  visit https://example.com/x now @@@"
      = .ok (ThinkOutput.sanity_fallback "  visit https://example.com/x now @@@") ∧
    (ThinkOutput.sanity_fallback "  visit https://example.com/x now @@@").speech_plan
      = "visit  now @@@" := by
  refine ⟨by decide, by decide, by decide, by decide, by decide, by decide, by decide, by decide⟩

/-- C10: every PAD update clamps each coordinate of the resulting state into
[-1, 1], whatever the prior state and deltas, both at the PAD model and through
the emotion service update. -/
theorem pad_update_within_range :
    (∀ (s : EmotionalState) (pd ad dd : ℚ),
      (-1 ≤ (PADModel.update s pd ad dd).pleasure ∧ (PADModel.update s pd ad dd).pleasure ≤ 1) ∧
      (-1 ≤ (PADModel.update s pd ad dd).arousal ∧ (PADModel.update s pd ad dd).arousal ≤ 1) ∧
      (-1 ≤ (PADModel.update s pd ad dd).dominance ∧ (PADModel.update s pd ad dd).dominance ≤ 1)) ∧
    (∀ (st : EmotionServiceState) (pd ad dd : ℚ) (reason : String) (now : ℚ),
      (-1 ≤ (EmotionService.updateState st pd ad dd reason now).pad.pleasure ∧
        (EmotionService.updateState st pd ad dd reason now).pad.pleasure ≤ 1) ∧
      (-1 ≤ (EmotionService.updateState st pd ad dd reason now).pad.arousal ∧
        (EmotionService.updateState st pd ad dd reason now).pad.arousal ≤ 1) ∧
      (-1 ≤ (EmotionService.updateState st pd ad dd reason now).pad.dominance ∧
        (EmotionService.updateState st pd ad dd reason now).pad.dominance ≤ 1)) := by
  constructor
  · intro s pd ad dd
    exact ⟨clamp_range _, clamp_range _, clamp_range _⟩
  · intro st pd ad dd reason now
    unfold EmotionService.updateState
    exact ⟨clamp_range _, clamp_range _, clamp_range _⟩

end Ghost
